import Mathlib

/-!
Verification development for `mercari_spy.py`, a marketplace watcher built as an
extraction–diff–notify pipeline.  Pure string processing (regex helpers, price
cleaning, message formatting, chunking) is translated directly; interactions
with the browser, the network and the clock are represented by explicit input
data (element attribute values, fetch outcomes, timestamps) threaded through
the same control flow as the source.  Python floats are modelled by `ℚ`.

Note on string literals: the source file `mercari_spy.py` is stored in a
double-encoded form (its UTF-8 text was decoded as MacRoman and re-encoded),
so the literals for the euro sign, the yen sign, the kanji in the regexes and
the emoji in the alert template appear in the file as multi-character mojibake
sequences.  The definitions below reproduce those literals character for
character (written with \u escapes), since that is what the program actually
compares and emits.
-/

namespace MercariSpy

/-- Substring test on character lists: does `n` occur contiguously in `h`?
Models Python's `needle in haystack`. -/
def substrIn (n : List Char) : List Char → Bool
  | [] => List.isPrefixOf n []
  | c :: t => List.isPrefixOf n (c :: t) || substrIn n t

/-- Substring test on strings; models Python's `in` operator on `str`. -/
def substrS (needle hay : String) : Bool :=
  substrIn needle.toList hay.toList

/-- ASCII lower-casing of one character; models Python `str.lower()` for the
ASCII range used by the source's markers (`"access denied"`, `"image/"`). -/
def charLower (c : Char) : Char :=
  if 'A' ≤ c ∧ c ≤ 'Z' then Char.ofNat (c.toNat + 32) else c

/-- ASCII `str.lower()` model. -/
def strLower (s : String) : String :=
  String.mk (s.toList.map charLower)

/-- Python `s.startswith(pre)`. -/
def startsWithS (pre s : String) : Bool :=
  List.isPrefixOf pre.toList s.toList

/-- Python `s.strip()`: drop leading and trailing whitespace. -/
def trimS (s : String) : String :=
  String.mk (((s.toList.dropWhile Char.isWhitespace).reverse.dropWhile
    Char.isWhitespace).reverse)

/-- One listing record, as built at `mercari_spy.py:523-531`
(`products[product_id] = {...}`).  `screenshot_path` is `none` when the
element screenshot failed (`mercari_spy.py:514-517`). -/
structure Product where
  title : String
  price_jpy : String
  price_euro : String
  link : String
  image : String
  found_time : String
  screenshot_path : Option String
deriving DecidableEq, Repr

/-- Per-query slice of the known-products store: a Python `dict` from listing
id to record, modelled as an insertion-ordered association list with unique
keys maintained by `dictInsert`. -/
abbrev Store := List (String × Product)

/-- The key set of a per-query store (Python `dict` key view). -/
def keysOf (m : Store) : List String :=
  m.map Prod.fst

/-- Python `d[k] = v` on a `dict`: overwrite in place if the key exists,
otherwise append (insertion order). -/
def dictInsert (m : Store) (k : String) (v : Product) : Store :=
  if m.any (fun q => q.1 == k) then
    m.map (fun q => if q.1 == k then (k, v) else q)
  else
    m ++ [(k, v)]

/-- The diff step of `main`, `mercari_spy.py:782-783`:
`{id: product for id, product in current_products.items() if id not in known_products[query]}`. -/
def diff (current knownQ : Store) : Store :=
  current.filter (fun p => !(knownQ.any (fun q => q.1 == p.1)))

/- ## Currency conversion (`get_jpy_to_eur_rate`, `jpy_to_euro`) -/

/-- The euro sign as it literally appears in the source file
(mojibake of U+20AC): the three characters `‚`, `Ç`, `¨`. -/
def euroSign : String := "‚Ç¨"

/-- `re.sub(r'[^\d.]', '', jpy_str)` from `mercari_spy.py:170`: keep only
ASCII digits and dots. -/
def cleanPriceChars (s : String) : String :=
  String.mk (s.toList.filter (fun c => c.isDigit || c == '.'))

/-- Value of a digit string, most significant first. -/
def digitsToNat (ds : List Char) : Nat :=
  ds.foldl (fun n c => 10 * n + (c.toNat - 48)) 0

/-- Python `float(s)` restricted to the digit/dot strings that
`cleanPriceChars` can produce: digits with at most one dot and at least one
digit parse to a rational; anything else (extra dots, a lone dot, the empty
string) raises, modelled as `none`. -/
def parseFloatQ (cs : List Char) : Option ℚ :=
  let intPart := cs.takeWhile Char.isDigit
  let rest := cs.drop intPart.length
  match rest with
  | [] => if intPart.isEmpty then none else some ((digitsToNat intPart : ℕ) : ℚ)
  | '.' :: fracPart =>
    if fracPart.all Char.isDigit && (!intPart.isEmpty || !fracPart.isEmpty) then
      some (((digitsToNat intPart : ℕ) : ℚ) +
            ((digitsToNat fracPart : ℕ) : ℚ) / ((10 : ℚ) ^ fracPart.length))
    else none
  | _ => none

/-- Two-digit zero-padded decimal suffix. -/
def pad2 (n : Nat) : String :=
  if n < 10 then "0" ++ toString n else toString n

/-- Python `f"{euro:.2f}"` for the nonnegative amounts produced here: round
to the nearest hundredth and print with exactly two decimals. -/
def fmt2 (q : ℚ) : String :=
  let cents : ℤ := ⌊q * 100 + 1 / 2⌋
  toString (cents.toNat / 100) ++ "." ++ pad2 (cents.toNat % 100)

/-- `jpy_to_euro` (`mercari_spy.py:164-178`), with the process-global cached
rate passed explicitly.  `none` models `get_jpy_to_eur_rate()` returning
`None` (no fetch ever succeeded). -/
def jpy_to_euro (rate : Option ℚ) (jpy_str : String) : String :=
  match rate with
  | none => euroSign ++ "N/A (Rate Error)"
  | some r =>
    let cleaned := cleanPriceChars jpy_str
    if cleaned = "" then euroSign ++ "N/A (Parse Error)"
    else
      match parseFloatQ cleaned.toList with
      | none => euroSign ++ "N/A (Conv. Error)"
      | some jpy => euroSign ++ fmt2 (jpy * r)

/-- The mutable module state of the rate cache: globals `JPY_TO_EUR_RATE`
and `RATE_LAST_UPDATED` (`mercari_spy.py:82-83`). -/
structure RateCache where
  rate : Option ℚ
  lastUpdated : ℚ
deriving DecidableEq

/-- Outcome of the HTTP fetch inside `get_jpy_to_eur_rate`: a parsed rate
value, a response without an `EUR` rate (`data.get("rates", {}).get("EUR")`
returned `None`), or a raised request/JSON error. -/
inductive FetchOutcome where
  | ok (v : ℚ)
  | noRate
  | httpError
deriving DecidableEq

/-- `get_jpy_to_eur_rate` (`mercari_spy.py:139-162`) as a state transformer:
given the TTL, the current time, what the fetch would yield if attempted, and
the cache state, return (returned rate, new cache state, whether a fetch was
attempted).  `FetchOutcome.ok 0` falls into the `if rate:` falsy branch of
the source, like a missing rate. -/
def get_jpy_to_eur_rate (ttl now : ℚ) (fetched : FetchOutcome) (st : RateCache) :
    Option ℚ × RateCache × Bool :=
  if st.rate.isSome && decide (now - st.lastUpdated < ttl) then
    (st.rate, st, false)
  else
    match fetched with
    | .ok v => if v ≠ 0 then (some v, ⟨some v, now⟩, true) else (st.rate, st, true)
    | .noRate => (st.rate, st, true)
    | .httpError => (st.rate, st, true)

/- ## Debug logger chunking (`log_message`, `mercari_spy.py:126-132`) -/

/-- Telegram's per-message text limit, `max_len = 4096` at `mercari_spy.py:127`. -/
def telegramMaxLen : Nat := 4096

/-- `for i in range(0, len(message), max_len): send(message[i:i+max_len])`:
successive slices of at most `telegramMaxLen` characters.  The fuel argument
(instantiated with the message length) bounds the recursion; one chunk
consumes at least one character, so the fuel never runs out. -/
def chunksFuel : Nat → List Char → List (List Char)
  | 0, _ => []
  | _, [] => []
  | fuel + 1, cs => cs.take telegramMaxLen :: chunksFuel fuel (cs.drop telegramMaxLen)

/-- The sequence of `send_message` texts issued by `log_message` for one
message when debug mirroring is enabled (empty message: no send at all). -/
def log_message_sends (message : String) : List String :=
  (chunksFuel message.length message.toList).map String.mk

/- ## Alert dispatcher (`send_product_alert`, `mercari_spy.py:697-739`) -/

/-- The alert text built at `mercari_spy.py:701-706` (the emoji prefixes are
reproduced as the mojibake character sequences present in the source file). -/
def alertMessage (query : String) (product : Product) : String :=
  "‚ú® New Mercari Listing! ‚ú®\n\n" ++
  "üîç Query: \u0027" ++ query ++ "\u0027\n" ++
  "üìù " ++ product.title ++ "\n" ++
  "üí∞ " ++ product.price_jpy ++ " / " ++ product.price_euro ++ "\n" ++
  "üîó " ++ product.link ++ "\n" ++
  "‚è∞ Found: " ++ product.found_time

/-- The text sends issued for the main notification of one alert: a single
`telegram_bot.send_message` call with the whole text
(`mercari_spy.py:708-712`); no chunking is applied there.  (The optional
image-URL fallback text of the screenshot feature is not modelled; it does
not add chunking either.) -/
def alertTextSends (query : String) (product : Product) : List String :=
  [alertMessage query product]

/-- What `send_product_alert` logs about the text send: the function wraps
everything in `try/except Exception` (`mercari_spy.py:737-739`), telling a
flood-control error apart from other failures by substring, and always
returns normally. -/
inductive AlertLog where
  | sentOk
  | floodControlLogged
  | errorLogged
deriving DecidableEq, Repr

/-- `send_product_alert`'s control flow on the outcome of the Telegram text
send (`.error e` models a raised exception with message `e`): exceptions are
swallowed, never propagated to the caller's loop. -/
def send_product_alert (sendResult : Except String Unit) : AlertLog :=
  match sendResult with
  | .ok _ => .sentOk
  | .error e =>
    if substrS "Flood control exceeded" e then .floodControlLogged else .errorLogged

/-- One iteration of the alert loop in `main` (`mercari_spy.py:791-795`):
attempt the alert for the record, then add it to the known store.
`sendOf` maps a product id to the outcome its Telegram send would have. -/
def alertLoopStep (sendOf : String → Except String Unit)
    (acc : List (String × AlertLog) × Store) (p : String × Product) :
    List (String × AlertLog) × Store :=
  (acc.1 ++ [(p.1, send_product_alert (sendOf p.1))], dictInsert acc.2 p.1 p.2)

/-- The per-query new-product handling of `main` (`mercari_spy.py:782-795`):
diff against the known store, then for each new record attempt the alert and
commit the record.  Returns (alert attempts in order, updated store). -/
def processNewForQuery (sendOf : String → Except String Unit)
    (current knownQ : Store) : List (String × AlertLog) × Store :=
  (diff current knownQ).foldl (alertLoopStep sendOf) ([], knownQ)

/- ## Background classifier (`is_background_white`, `mercari_spy.py:181-266`) -/

/-- A decoded image: dimensions plus an RGB pixel accessor
(`img.getpixel((x, y))`). -/
structure ImageData where
  width : Nat
  height : Nat
  pixel : Nat → Nat → Nat × Nat × Nat

/-- The HTTP response for an image URL: its content type and, if PIL could
decode the body, the image (`none` models `Image.UnidentifiedImageError`). -/
structure ImageFetch where
  contentType : String
  decoded : Option ImageData

/-- The border sample of `mercari_spy.py:209-217`: both horizontal bands,
then the vertical bands excluding the corners already visited. -/
def borderPixelsOf (img : ImageData) (border_margin : Nat) : List (Nat × Nat × Nat) :=
  ((List.range img.width).flatMap (fun x =>
    (List.range border_margin).flatMap (fun y =>
      [img.pixel x y, img.pixel x (img.height - 1 - y)]))) ++
  ((List.range' border_margin (img.height - border_margin - border_margin)).flatMap (fun y =>
    (List.range border_margin).flatMap (fun x =>
      [img.pixel x y, img.pixel (img.width - 1 - x) y])))

/-- `white_count` of `mercari_spy.py:223-226`: pixels whose three channels
all reach the colour threshold. -/
def countWhite (pixels : List (Nat × Nat × Nat)) (color_threshold : Nat) : Nat :=
  (pixels.filter (fun p =>
    decide (color_threshold ≤ p.1) && decide (color_threshold ≤ p.2.1) &&
    decide (color_threshold ≤ p.2.2))).length

/-- `is_background_white` (`mercari_spy.py:181-266`) with the network world
passed explicitly: `fetch = none` models a raised download error (timeout,
request exception).  The image-saving side effect on a positive result does
not affect the returned value and is not modelled. -/
def is_background_white (image_url : String) (fetch : Option ImageFetch)
    (border_margin color_threshold : Nat) (border_threshold : ℚ) : Bool :=
  if image_url = "" || !startsWithS "http" image_url then false
  else
    match fetch with
    | none => false
    | some rsp =>
      if !startsWithS "image/" (strLower rsp.contentType) then false
      else
        match rsp.decoded with
        | none => false
        | some img =>
          if img.width ≤ border_margin * 2 ∨ img.height ≤ border_margin * 2 then false
          else
            let bps := borderPixelsOf img border_margin
            if bps.isEmpty then false
            else decide (border_threshold ≤
                   ((countWhite bps color_threshold : ℕ) : ℚ) / ((bps.length : ℕ) : ℚ))

/- ## Field extraction (`extract_products_mercari`, `mercari_spy.py:362-562`) -/

/-- The yen price prefix written by `price = f"¬•{...}"` at
`mercari_spy.py:466` and tested by `'¬•' in p_text` at line 479 (mojibake of
U+00A5 in the source file: the two characters `¬` and `•`). -/
def yenSign : String := "¬•"

/-- The kanji at the end of the title/price regexes, appearing in the source
file as the three mojibake characters `Â`, `Ü`, `Ü`. -/
def yenGlyph : List Char := "ÂÜÜ".toList

/-- `re.search(r'/(m\d+)/?$', link)` at `mercari_spy.py:434`, returning
`group(1)`: the link must end with `/m<digits>`, optionally followed by one
final `/`. -/
def parseProductId (link : String) : Option String :=
  let cs := link.toList
  let cs := if cs.getLast? = some '/' then cs.dropLast else cs
  let rcs := cs.reverse
  let rds := rcs.takeWhile Char.isDigit
  if rds.isEmpty then none
  else
    match rcs.drop rds.length with
    | 'm' :: '/' :: _ => some (String.mk ('m' :: rds.reverse))
    | _ => none

/-- Satisfiability of `(?:,\d{3})*ÂÜÜ` at the head of the input: stop on the
yen glyph, or consume one `,ddd` group and continue. -/
def yenGroups : List Char → Bool
  | ',' :: a :: b :: c :: rest =>
    List.isPrefixOf yenGlyph (',' :: a :: b :: c :: rest) ||
    (a.isDigit && b.isDigit && c.isDigit && yenGroups rest)
  | cs => List.isPrefixOf yenGlyph cs

/-- Satisfiability of `\d{1,3}(?:,\d{3})*ÂÜÜ` at the head of the input (the
three possible counts of leading digits are all tried, as regex backtracking
would). -/
def digitsThenYen : List Char → Bool
  | [] => false
  | d1 :: rest1 =>
    d1.isDigit &&
      (yenGroups rest1 ||
        match rest1 with
        | [] => false
        | d2 :: rest2 =>
          d2.isDigit &&
            (yenGroups rest2 ||
              match rest2 with
              | [] => false
              | d3 :: rest3 => d3.isDigit && yenGroups rest3))

/-- Does `\s+\d{1,3}(?:,\d{3})*ÂÜÜ` match at the head of the input?
Whitespace and digits are disjoint, so the greedy `\s+` is exact. -/
def titleTailMatch : List Char → Bool
  | [] => false
  | c :: rest => c.isWhitespace && digitsThenYen (rest.dropWhile Char.isWhitespace)

/-- Scan for the least split point realising
`re.match(r'^(.*?)\s+\d{1,3}(?:,\d{3})*ÂÜÜ', aria)` (the lazy `(.*?)` takes
the shortest prefix); the result is `group(1).strip()`. -/
def titleScanAux (acc : List Char) : List Char → Option String
  | [] => none
  | c :: rest =>
    if titleTailMatch (c :: rest) then some (trimS (String.mk acc))
    else titleScanAux (acc ++ [c]) rest

/-- The title fallback parse of `mercari_spy.py:453-454`. -/
def titleFromAria (aria : String) : Option String :=
  titleScanAux [] aria.toList

/-- Does `\s*ÂÜÜ` match at the head of the input? -/
def yenAfterSpaces (cs : List Char) : Bool :=
  List.isPrefixOf yenGlyph (cs.dropWhile Char.isWhitespace)

/-- Greedy-with-backtracking `(?:,\d{3})*\s*ÂÜÜ`: prefer consuming another
`,ddd` group; on failure fall back to ending the star here.  Returns the
group characters consumed. -/
def starYen : List Char → Option (List Char)
  | ',' :: a :: b :: c :: rest =>
    if a.isDigit && b.isDigit && c.isDigit then
      match starYen rest with
      | some consumed => some (',' :: a :: b :: c :: consumed)
      | none => if yenAfterSpaces (',' :: a :: b :: c :: rest) then some [] else none
    else if yenAfterSpaces (',' :: a :: b :: c :: rest) then some [] else none
  | cs => if yenAfterSpaces cs then some [] else none

/-- First alternative `\d{1,3}(?:,\d{3})*` of the price regex at one
position, greedy over the leading digit count; returns the `group(1)` text. -/
def alt1Price (cs : List Char) : Option (List Char) :=
  let tryK : Nat → Option (List Char) := fun k =>
    let ds := cs.take k
    if (ds.length == k) && ds.all Char.isDigit then
      (starYen (cs.drop k)).map (fun g => ds ++ g)
    else none
  (tryK 3).orElse (fun _ => (tryK 2).orElse (fun _ => tryK 1))

/-- Longest-first backtracking for the second alternative `\d+\s*ÂÜÜ`: `rds`
holds the remaining candidate digits reversed. -/
def alt2Rev : List Char → List Char → Option (List Char)
  | [], _ => none
  | d :: rs, rest =>
    if yenAfterSpaces rest then some (d :: rs).reverse
    else alt2Rev rs (d :: rest)

/-- Second alternative `\d+` of the price regex at one position. -/
def alt2Price (cs : List Char) : Option (List Char) :=
  let ds := cs.takeWhile Char.isDigit
  if ds.isEmpty then none else alt2Rev ds.reverse (cs.drop ds.length)

/-- Leftmost match of `re.search(r'(\d{1,3}(?:,\d{3})*|\d+)\s*ÂÜÜ', aria)`:
try each start position left to right, preferring the first alternative. -/
def priceSearchAux : List Char → Option (List Char)
  | [] => none
  | c :: rest =>
    match alt1Price (c :: rest) with
    | some g => some g
    | none =>
      match alt2Price (c :: rest) with
      | some g => some g
      | none => priceSearchAux rest

/-- The aria-label price parse of `mercari_spy.py:465-466`: `group(1)`
prefixed with the source's yen sign. -/
def priceFromAria (aria : String) : Option String :=
  (priceSearchAux aria.toList).map (fun g => yenSign ++ String.mk g)

/-- Result of one browser read inside the item loop whose inner handler only
catches `NoSuchElementException`: the value, the element/attribute being
absent (the caught `NoSuchElementException`, or a `None` attribute where the
code raises one itself), or an exception the inner handler does not catch —
`StaleElementReferenceException` or any other error — which propagates to the
per-item handlers at `mercari_spy.py:541-551` and skips the listing. -/
inductive ElemRead (α : Type) where
  | ok (val : α)
  | absent
  | raised
deriving DecidableEq, Repr

/-- The observable attributes of one rendered `li[data-testid='item-cell']`
element, as read through the browser boundary.  `scrollRaises` models the
`scrollIntoView` script at `mercari_spy.py:425` raising (e.g. on a stale
element).  `linkRead` is `a[data-testid='thumbnail-link']`'s `href`
(`absent`: element missing or attribute `None`, both skipped at line 440;
`raised`: an uncaught exception during the link block).  `titleRead` is
`span[data-testid='thumbnail-item-name']`'s text (`absent`: the
`NoSuchElementException` caught at line 456; `raised`: a stale/other
exception escaping to lines 541-551).  The price block (lines 459-483), the
image block (486-494) and the screenshot (513-517) each end in a
catch-everything handler, so their reads only degrade and are modelled by
plain data: `thumbAria` for `div.merItemThumbnail` (`some none`: element
present, `aria-label` absent), `visiblePriceTexts` for the texts found by the
visible-price selector scan in scan order, `imgSrc` for the `figure img`
`src`/`data-src`, `imageFetch` for the network response behind the image URL,
`screenshotPath` for the element-screenshot side effect (`none`: it
failed). -/
structure ItemElement where
  scrollRaises : Bool
  linkRead : ElemRead String
  titleRead : ElemRead String
  thumbAria : Option (Option String)
  visiblePriceTexts : List String
  imgSrc : Option String
  imageFetch : Option ImageFetch
  screenshotPath : Option String

/-- The configuration and ambient state consulted during extraction:
`FILTER_WHITE_BACKGROUNDS`, `WHITE_BG_COLOR_THRESHOLD`,
`WHITE_BG_BORDER_THRESHOLD`, the cached JPY→EUR rate, and the formatted
current time used for `found_time`. -/
structure Config where
  filterWhiteBackgrounds : Bool
  whiteBgColorThreshold : Nat
  whiteBgBorderThreshold : ℚ
  rate : Option ℚ
  foundTime : String

/-- Title extraction (`mercari_spy.py:443-457`): the designated text node,
stripped; if empty or shorter than 2 characters, fall back to the aria-label
regex (whose own reads sit under a bare `except: pass`); any failure of the
fallback leaves the short title in place; a caught missing title element
leaves the placeholder.  The `.raised` case never reaches a title value —
`extractItem` aborts the item first, mirroring the exception propagating out
of the title block before any assignment. -/
def extractTitle (e : ItemElement) : String :=
  match e.titleRead with
  | .absent => "Title not found"
  | .raised => "Title not found"
  | .ok raw =>
    let t := trimS raw
    if t = "" ∨ t.length < 2 then
      match e.thumbAria with
      | some (some aria) =>
        if aria ≠ "" then
          match titleFromAria aria with
          | some t2 => t2
          | none => t
        else t
      | _ => t
    else t

/-- Price extraction (`mercari_spy.py:459-483`): the aria-label pattern
first; if that leaves the placeholder, scan the visible candidate price
elements for one containing the yen sign.  A missing `merItemThumbnail`
element raises before the visible scan and is caught by the enclosing
`except`, leaving the placeholder. -/
def extractPrice (e : ItemElement) : String :=
  match e.thumbAria with
  | none => "Price not found"
  | some ariaOpt =>
    let priceFromLabel :=
      match ariaOpt with
      | some aria =>
        if aria ≠ "" then
          match priceFromAria aria with
          | some pr => pr
          | none => "Price not found"
        else "Price not found"
      | none => "Price not found"
    if priceFromLabel = "Price not found" then
      match (e.visiblePriceTexts.map trimS).find? (fun t => substrS yenSign t) with
      | some pr => pr
      | none => "Price not found"
    else priceFromLabel

/-- Image extraction (`mercari_spy.py:486-494`): only an absolute
`http(s)` URL is accepted; anything else degrades to the empty string. -/
def extractImage (e : ItemElement) : String :=
  match e.imgSrc with
  | none => ""
  | some s => if !(s == "") && startsWithS "http" s then s else ""

/-- The fate of one listing element in the extraction loop
(`mercari_spy.py:414-551`): skipped without being counted — for a missing
link (`continue` at line 440) or an uncaught stale/other exception reaching
the per-item handlers (`continue` at lines 541-551) — excluded by the
white-background filter (counted as processed), discarded by the validity
check (counted as processed), or stored. -/
inductive ItemOutcome where
  | skippedNoLink
  | skippedError
  | filteredWhiteBg (product_id : String)
  | discardedInvalid (product_id title price : String)
  | stored (product_id : String) (record : Product)
deriving DecidableEq, Repr

/-- The listing id an outcome carries, if the element got one at all. -/
def ItemOutcome.idOf : ItemOutcome → Option String
  | .skippedNoLink => none
  | .skippedError => none
  | .filteredWhiteBg pid => some pid
  | .discardedInvalid pid _ _ => some pid
  | .stored pid _ => some pid

/-- One iteration of the item loop (`mercari_spy.py:414-551`): scroll, link/id
with hash fallback, title, price, image, optional white-background filter,
validity check, record construction.  A read that raises past its inner
handler (scroll, link block, title block) aborts the item via the
`StaleElementReferenceException`/`Exception` handlers at lines 541-551
(`skippedError`, not counted); the price, image and screenshot blocks catch
everything and only degrade.  `pyHash` stands for Python's process-seeded
`hash`. -/
def extractItem (cfg : Config) (pyHash : String → Int) (i : Nat) (e : ItemElement) :
    ItemOutcome :=
  if e.scrollRaises then .skippedError
  else
    match e.linkRead with
    | .raised => .skippedError
    | .absent => .skippedNoLink
    | .ok link =>
      if link = "" then .skippedNoLink
      else
        let product_id :=
          match parseProductId link with
          | some pid => pid
          | none => "hash_" ++ toString (pyHash link) ++ "_" ++ toString i
        match e.titleRead with
        | .raised => .skippedError
        | _ =>
          let title := extractTitle e
          let price := extractPrice e
          let item_image := extractImage e
          if cfg.filterWhiteBackgrounds && !(item_image == "") &&
             is_background_white item_image e.imageFetch 5
               cfg.whiteBgColorThreshold cfg.whiteBgBorderThreshold then
            .filteredWhiteBg product_id
          else if !(title == "Title not found") && !(price == "Price not found") then
            .stored product_id
              { title := title, price_jpy := price, price_euro := jpy_to_euro cfg.rate price,
                link := link, image := item_image, found_time := cfg.foundTime,
                screenshot_path := e.screenshotPath }
          else
            .discardedInvalid product_id title price

/-- The running counters of the extraction loop: the products dict,
`processed_count` and `stored_count`. -/
structure ExtractAcc where
  products : Store
  processed : Nat
  stored : Nat
deriving DecidableEq, Repr

/-- Folding one enumerated element into the counters. -/
def extractStep (cfg : Config) (pyHash : String → Int) (acc : ExtractAcc)
    (ie : Nat × ItemElement) : ExtractAcc :=
  match extractItem cfg pyHash ie.1 ie.2 with
  | .skippedNoLink => acc
  | .skippedError => acc
  | .filteredWhiteBg _ => ⟨acc.products, acc.processed + 1, acc.stored⟩
  | .discardedInvalid _ _ _ => ⟨acc.products, acc.processed + 1, acc.stored⟩
  | .stored pid record => ⟨dictInsert acc.products pid record, acc.processed + 1, acc.stored + 1⟩

/-- `extract_products_mercari` over the observable page data: an absent item
container returns the empty dict (`mercari_spy.py:371-410`), otherwise the
enumerated item loop runs. -/
def extract_products_mercari (cfg : Config) (pyHash : String → Int)
    (containerPresent : Bool) (items : List ItemElement) : ExtractAcc :=
  if !containerPresent then ⟨[], 0, 0⟩
  else items.enum.foldl (extractStep cfg pyHash) ⟨[], 0, 0⟩

/- ## Sort verifier and query pipeline (`apply_sort_by_newest_mercari`,
`search_mercari`, `mercari_spy.py:322-360` and 564-660) -/

/-- How the sort-selection attempt ends: the `<select>` interaction
succeeded, timed out waiting for the element, lacked the wanted option, or
raised some other error (`mercari_spy.py:340-360`). -/
inductive SortOutcome where
  | success
  | timedOut
  | noSuchOption
  | otherError
deriving DecidableEq, Repr

/-- The sort verifier's states: `NotApplied → Applying → Applied | Failed`. -/
inductive SortState where
  | NotApplied
  | Applying
  | Applied
  | Failed
deriving DecidableEq, Repr

/-- The terminal state the sort attempt reaches: `Applied` on success, and
`Failed` on every caught error. -/
def sortStateOf : SortOutcome → SortState
  | .success => .Applied
  | _ => .Failed

/-- `apply_sort_by_newest_mercari`'s return value: `True` only on success;
every `except` branch returns `False` (`mercari_spy.py:322-360`). -/
def apply_sort_by_newest_mercari : SortOutcome → Bool
  | .success => true
  | _ => false

/-- `block_page_indicators_text` (`mercari_spy.py:575`), reproduced with the
source file's literal (mojibake) characters. -/
def blockIndicatorTexts : List String :=
  ["„Ç¢„ÇØ„Çª„Çπ„ÅåÈõÜ‰∏≠„Åó„Å¶„ÅÑ„Åæ„Åô", "Access Denied",
   "„É™„ÇØ„Ç®„Çπ„Éà„Åå‰∏ÄÊôÇÁöÑ„Å´„Éñ„É≠„ÉÉ„ÇØ„Åï„Çå„Åæ„Åó„Åü"]

/-- The observable page state after navigating to one query's search URL:
the page title and source, whether a visible element matched one of
`block_page_selectors`, how the sort attempt would end, the `src` attributes
of the page's iframes, and the item grid contents. -/
structure PageState where
  pageTitle : String
  pageSource : String
  blockSelectorVisible : Bool
  sortOutcome : SortOutcome
  iframeSrcs : List String
  containerPresent : Bool
  items : List ItemElement

/-- What one `search_mercari` call produced, instrumented with whether the
extraction loop was entered at all. -/
structure SearchResult where
  products : Store
  extractionInvoked : Bool

/-- `search_mercari` (`mercari_spy.py:564-660`): block-page checks, the
mandatory sort, the CAPTCHA iframe check, then extraction; every early exit
returns the empty dict. -/
def search_mercari (cfg : Config) (pyHash : String → Int) (ps : PageState) : SearchResult :=
  if substrS "access denied" (strLower ps.pageTitle) ||
     blockIndicatorTexts.any (fun ind => substrS ind ps.pageSource) then ⟨[], false⟩
  else if ps.blockSelectorVisible then ⟨[], false⟩
  else if !apply_sort_by_newest_mercari ps.sortOutcome then ⟨[], false⟩
  else if ps.iframeSrcs.any (fun src =>
      substrS "captcha" src || substrS "recaptcha" src || substrS "hcaptcha" src) then ⟨[], false⟩
  else ⟨(extract_products_mercari cfg pyHash ps.containerPresent ps.items).products, true⟩

/- ## Concrete fixtures used by witnesses and counterexamples -/

/-- A concrete record for store examples. -/
def pA : Product :=
  ⟨"Camera A", "¬•1,000", "‚Ç¨6.20", "https://jp.mercari.com/item/m1", "", "2025-01-01 00:00:00", none⟩

/-- A second concrete record for store examples. -/
def pB : Product :=
  ⟨"Camera B", "¬•2,000", "‚Ç¨12.40", "https://jp.mercari.com/item/m2", "", "2025-01-01 00:00:00", none⟩

/-- A two-record extraction result. -/
def exCur : Store := [("m1", pA), ("m2", pB)]

/-- A known store already holding the second record. -/
def exKnown : Store := [("m2", pB)]

/-- A send oracle whose first alert hits Telegram flood control. -/
def floodSend : String → Except String Unit := fun pid =>
  if pid = "m1" then Except.error "Flood control exceeded. Retry in 30 seconds" else Except.ok ()

/-- A configuration with the white-background filter off and no cached rate. -/
def cfgPlain : Config := ⟨false, 245, 95 / 100, none, "2026-10-12 00:00:00"⟩

/-- A configuration with the white-background filter on. -/
def cfgFilter : Config := ⟨true, 245, 95 / 100, none, "2026-10-12 00:00:00"⟩

/-- A stand-in for Python's process-seeded `hash`. -/
def hash0 : String → Int := fun _ => 0

/-- A listing element whose link lookup failed. -/
def elemNoLink : ItemElement :=
  ⟨false, .absent, .ok "Nice title", some (some "x"), [], none, none, none⟩

/-- A listing element with a parseable link but no title or price data. -/
def elemLinked : ItemElement :=
  ⟨false, .ok "https://jp.mercari.com/item/m777", .absent, none, [], none, none, none⟩

/-- A listing element whose link read succeeds but whose title read raises a
stale-element error. -/
def elemStaleTitle : ItemElement :=
  ⟨false, .ok "https://jp.mercari.com/item/m5", .raised, none, [], none, none, none⟩

/-- A 12×12 image that is entirely white. -/
def whiteImg : ImageData := ⟨12, 12, fun _ _ => (255, 255, 255)⟩

/-- An image-typed response decoding to the all-white image. -/
def whiteFetch : ImageFetch := ⟨"image/png", some whiteImg⟩

/-- A listing element whose image is the all-white picture. -/
def elemWhite : ItemElement :=
  ⟨false, .ok "https://jp.mercari.com/item/m9", .ok "White item", some (some "x"),
   [], some "http://img", some whiteFetch, none⟩

/-- A record whose title alone exceeds the Telegram message limit. -/
def bigTitleProduct : Product :=
  ⟨String.mk (List.replicate 4200 'a'), "¬•1", "‚Ç¨0.01", "https://x", "", "t", none⟩

/-- A page state whose sort attempt times out. -/
def psSortFailed : PageState := ⟨"Mercari", "ok", false, .timedOut, [], true, []⟩

end MercariSpy

/- ## Theorems -/

namespace MercariSpy

/-- Membership in the diff is membership in the current extraction minus the
known ids. -/
theorem mem_diff (current knownQ : Store) (p : String × Product) :
    p ∈ diff current knownQ ↔ p ∈ current ∧ p.1 ∉ keysOf knownQ := by
  simp only [diff, List.mem_filter, keysOf, List.mem_map, Bool.not_eq_true',
    List.any_eq_false, beq_iff_eq]
  constructor
  · rintro ⟨hc, hall⟩
    exact ⟨hc, by rintro ⟨q, hq, h1⟩; exact hall q hq h1⟩
  · rintro ⟨hc, hnk⟩
    refine ⟨hc, fun q hq hq1 => hnk ⟨q, hq, hq1⟩⟩

/-- `dictInsert` adds exactly the inserted key to the key set. -/
theorem mem_keysOf_dictInsert (m : Store) (k : String) (v : Product) (a : String) :
    a ∈ keysOf (dictInsert m k v) ↔ a = k ∨ a ∈ keysOf m := by
  unfold dictInsert keysOf
  by_cases h : m.any (fun q => q.1 == k) = true
  · obtain ⟨q0, hq0, hb0⟩ := List.any_eq_true.mp h
    have hk : k ∈ m.map Prod.fst :=
      List.mem_map.mpr ⟨q0, hq0, beq_iff_eq.mp hb0⟩
    have hmap : (m.map (fun q => if q.1 == k then (k, v) else q)).map Prod.fst =
        m.map Prod.fst := by
      rw [List.map_map]
      refine List.map_congr_left fun q _ => ?_
      by_cases hb : (q.1 == k) = true
      · simp only [Function.comp_apply, if_pos hb]
        exact (beq_iff_eq.mp hb).symm
      · simp only [Function.comp_apply, if_neg hb]
    rw [if_pos h, hmap]
    constructor
    · exact Or.inr
    · rintro (rfl | hm)
      · exact hk
      · exact hm
  · rw [if_neg h, List.map_append]
    simp [or_comm]

/-- Key membership after committing a list of records by repeated
`dictInsert`. -/
theorem mem_keysOf_commit (l : List (String × Product)) (m : Store) (a : String) :
    a ∈ keysOf (l.foldl (fun acc p => dictInsert acc p.1 p.2) m) ↔
      a ∈ l.map Prod.fst ∨ a ∈ keysOf m := by
  induction l generalizing m with
  | nil => simp
  | cons p t ih =>
    simp only [List.foldl_cons, List.map_cons, List.mem_cons]
    rw [ih, mem_keysOf_dictInsert]
    tauto

/-- The alert loop splits into its attempt log and a pure store commit. -/
theorem alertLoop_eq (sendOf : String → Except String Unit)
    (l : List (String × Product)) (logs : List (String × AlertLog)) (m : Store) :
    l.foldl (alertLoopStep sendOf) (logs, m) =
      (logs ++ l.map (fun p => (p.1, send_product_alert (sendOf p.1))),
       l.foldl (fun acc p => dictInsert acc p.1 p.2) m) := by
  induction l generalizing logs m with
  | nil => simp
  | cons p t ih =>
    simp only [List.foldl_cons, List.map_cons]
    rw [show alertLoopStep sendOf (logs, m) p =
      (logs ++ [(p.1, send_product_alert (sendOf p.1))], dictInsert m p.1 p.2) from rfl, ih]
    simp

/-- C1: for every query, the diff step returns exactly the current records
whose ids are not in the known-state store for that query; the diff is a pure
function of its inputs whose result set is invariant under reordering the
current records, and every store change of the query step is the caller's
commit of the diff result — the diff itself mutates nothing. -/
theorem claim_C1 (current knownQ : Store) :
    (∀ p : String × Product, p ∈ diff current knownQ ↔ p ∈ current ∧ p.1 ∉ keysOf knownQ)
    ∧ (∀ current' : Store, current.Perm current' →
        (diff current knownQ).Perm (diff current' knownQ))
    ∧ (∀ sendOf, (processNewForQuery sendOf current knownQ).2 =
        (diff current knownQ).foldl (fun acc p => dictInsert acc p.1 p.2) knownQ) := by
  refine ⟨mem_diff current knownQ, fun current' h => h.filter _, fun sendOf => ?_⟩
  unfold processNewForQuery
  rw [alertLoop_eq]

/-- C1 witness: the characterisation and the order-invariance at a concrete
two-record extraction against a one-record store. -/
theorem claim_C1_witness :
    (("m1", pA) ∈ diff exCur exKnown ↔ ("m1", pA) ∈ exCur ∧ "m1" ∉ keysOf exKnown)
    ∧ (diff exCur exKnown).Perm (diff [("m2", pB), ("m1", pA)] exKnown) :=
  ⟨(claim_C1 exCur exKnown).1 ("m1", pA),
   (claim_C1 exCur exKnown).2.1 [("m2", pB), ("m1", pA)]
     (List.Perm.swap ("m2", pB) ("m1", pA) [])⟩

/-- C2: for every new record produced by the diff, an alert attempt is made
and the record is added to the known store, whatever the send outcomes are
(including flood-control errors part way through the batch): the attempt log
lists every new id in order, and every new id ends up in the store. -/
theorem claim_C2 (sendOf : String → Except String Unit) (current knownQ : Store) :
    ((processNewForQuery sendOf current knownQ).1 =
      (diff current knownQ).map (fun p => (p.1, send_product_alert (sendOf p.1))))
    ∧ (∀ p : String × Product, p ∈ diff current knownQ →
        p.1 ∈ keysOf (processNewForQuery sendOf current knownQ).2) := by
  constructor
  · unfold processNewForQuery
    rw [alertLoop_eq]
    simp
  · intro p hp
    unfold processNewForQuery
    rw [alertLoop_eq]
    exact (mem_keysOf_commit _ _ _).mpr (Or.inl (List.mem_map.mpr ⟨p, hp, rfl⟩))

/-- C2 witness: with a send oracle that answers the first alert with a
flood-control error, both records are attempted in order, the flood-control
error is classified as such, and the second record still reaches the store. -/
theorem claim_C2_witness :
    ((processNewForQuery floodSend exCur []).1 =
      (diff exCur []).map (fun p => (p.1, send_product_alert (floodSend p.1))))
    ∧ "m2" ∈ keysOf (processNewForQuery floodSend exCur []).2
    ∧ send_product_alert (floodSend "m1") = .floodControlLogged :=
  ⟨(claim_C2 floodSend exCur []).1,
   (claim_C2 floodSend exCur []).2 ("m2", pB) (by decide),
   by decide⟩

/-- C7 counterexample: running the diff twice against an unchanged
current/known pair returns the same set both times, and that set is not
empty — so the claim "yields the empty set" fails as stated. -/
theorem claim_C7_counterexample :
    diff [("m1", pA)] [] = diff [("m1", pA)] [] ∧ diff [("m1", pA)] [] ≠ [] :=
  ⟨rfl, by decide⟩

/-- C7 as amended: after the first diff's records have been committed to the
store by the alert loop, running the diff again over the same current records
yields the empty set. -/
theorem claim_C7 (sendOf : String → Except String Unit) (current knownQ : Store) :
    diff current ((processNewForQuery sendOf current knownQ).2) = [] := by
  unfold processNewForQuery
  rw [alertLoop_eq]
  refine List.filter_eq_nil_iff.mpr fun p hp => ?_
  rw [Bool.not_eq_true, Bool.not_eq_false']
  rw [List.any_eq_true]
  have key : p.1 ∈ keysOf ((diff current knownQ).foldl
      (fun acc q => dictInsert acc q.1 q.2) knownQ) := by
    by_cases hk : p.1 ∈ keysOf knownQ
    · exact (mem_keysOf_commit _ _ _).mpr (Or.inr hk)
    · have hpd : p ∈ diff current knownQ := (mem_diff _ _ _).mpr ⟨hp, hk⟩
      exact (mem_keysOf_commit _ _ _).mpr
        (Or.inl (List.mem_map.mpr ⟨p, hpd, rfl⟩))
  obtain ⟨q, hq, hq1⟩ := List.mem_map.mp key
  exact ⟨q, hq, beq_iff_eq.mpr hq1⟩

/-- Evaluation of the spec's concrete conversion scenario on the translated
code: the native string is stripped to `15000`, multiplied by the cached rate
`0.0062`, and printed with two decimals behind the source's euro sign. -/
theorem jpy_to_euro_example :
    jpy_to_euro (some (62 / 10000 : ℚ)) "¥15,000" = euroSign ++ "93.00" := by
  have h1 : jpy_to_euro (some (62 / 10000 : ℚ)) "¥15,000" =
      euroSign ++ fmt2 (((15000 : ℕ) : ℚ) * (62 / 10000 : ℚ)) := rfl
  have h2 : ((15000 : ℕ) : ℚ) * (62 / 10000 : ℚ) = 93 := by push_cast; norm_num
  have h4 : fmt2 (93 : ℚ) =
      toString ((⌊(93 : ℚ) * 100 + 1 / 2⌋ : ℤ).toNat / 100) ++ "." ++
        pad2 ((⌊(93 : ℚ) * 100 + 1 / 2⌋ : ℤ).toNat % 100) := rfl
  have h3 : (⌊(93 : ℚ) * 100 + 1 / 2⌋ : ℤ) = 9300 := by
    rw [Int.floor_eq_iff]
    norm_num
  rw [h1, h2, h4, h3]
  decide

/-- C5 as amended: conversion strips all non-digit/non-dot characters, parses
the remainder, multiplies by the cached rate and formats with two decimals
behind the currency symbol as it appears in the source file (the mojibake
sequence `‚Ç¨` standing for the euro sign); `"¥15,000"` at cached rate
`0.0062` converts to `"‚Ç¨93.00"`; a missing rate or a parse failure yields a
`"‚Ç¨N/A (...)"` sentinel rather than failing the record. -/
theorem claim_C5 :
    (jpy_to_euro (some (62 / 10000 : ℚ)) "¥15,000" = euroSign ++ "93.00")
    ∧ (∀ s, jpy_to_euro none s = euroSign ++ "N/A (Rate Error)")
    ∧ (∀ (r : ℚ) (s : String), cleanPriceChars s = "" →
        jpy_to_euro (some r) s = euroSign ++ "N/A (Parse Error)")
    ∧ (∀ (r : ℚ) (s : String), cleanPriceChars s ≠ "" →
        parseFloatQ (cleanPriceChars s).toList = none →
        jpy_to_euro (some r) s = euroSign ++ "N/A (Conv. Error)")
    ∧ (∀ (r x : ℚ) (s : String), cleanPriceChars s ≠ "" →
        parseFloatQ (cleanPriceChars s).toList = some x →
        jpy_to_euro (some r) s = euroSign ++ fmt2 (x * r)) := by
  refine ⟨jpy_to_euro_example, fun s => rfl, ?_, ?_, ?_⟩
  · intro r s h
    show (if cleanPriceChars s = "" then euroSign ++ "N/A (Parse Error)"
          else match parseFloatQ (cleanPriceChars s).toList with
            | none => euroSign ++ "N/A (Conv. Error)"
            | some jpy => euroSign ++ fmt2 (jpy * r)) = euroSign ++ "N/A (Parse Error)"
    rw [if_pos h]
  · intro r s h hp
    show (if cleanPriceChars s = "" then euroSign ++ "N/A (Parse Error)"
          else match parseFloatQ (cleanPriceChars s).toList with
            | none => euroSign ++ "N/A (Conv. Error)"
            | some jpy => euroSign ++ fmt2 (jpy * r)) = euroSign ++ "N/A (Conv. Error)"
    rw [if_neg h, hp]
  · intro r x s h hp
    show (if cleanPriceChars s = "" then euroSign ++ "N/A (Parse Error)"
          else match parseFloatQ (cleanPriceChars s).toList with
            | none => euroSign ++ "N/A (Conv. Error)"
            | some jpy => euroSign ++ fmt2 (jpy * r)) = euroSign ++ fmt2 (x * r)
    rw [if_neg h, hp]

/-- C5 counterexample: the claim's expected output string `"€93.00"` (with a
genuine euro sign) is not what the code produces — the source file's literal
is the mojibake sequence, so the output is `"‚Ç¨93.00"`. -/
theorem claim_C5_counterexample :
    jpy_to_euro (some (62 / 10000 : ℚ)) "¥15,000" ≠ "€93.00" := by
  rw [jpy_to_euro_example]
  decide

/-- C5 witness: the sentinel branches at concrete inputs. -/
theorem claim_C5_witness :
    jpy_to_euro (some (1 : ℚ)) "abc" = euroSign ++ "N/A (Parse Error)"
    ∧ jpy_to_euro (some (1 : ℚ)) "1.2.3" = euroSign ++ "N/A (Conv. Error)"
    ∧ jpy_to_euro none "¥100" = euroSign ++ "N/A (Rate Error)" :=
  ⟨claim_C5.2.2.1 1 "abc" (by decide),
   claim_C5.2.2.2.1 1 "1.2.3" (by decide) (by decide),
   claim_C5.2.1 "¥100"⟩

/-- C6: a rate cached at time `T` is reused without refetching by every
request strictly before `T + ttl` (the state is untouched and no fetch
happens), any request from `T + ttl` on attempts exactly one fetch, and a
successful refetch caches the new value at the request time. -/
theorem claim_C6 (ttl now T v : ℚ) (fetched : FetchOutcome) :
    (now - T < ttl →
      get_jpy_to_eur_rate ttl now fetched ⟨some v, T⟩ = (some v, ⟨some v, T⟩, false))
    ∧ (ttl ≤ now - T → (get_jpy_to_eur_rate ttl now fetched ⟨some v, T⟩).2.2 = true)
    ∧ (∀ w : ℚ, w ≠ 0 → ttl ≤ now - T →
        get_jpy_to_eur_rate ttl now (.ok w) ⟨some v, T⟩ = (some w, ⟨some w, now⟩, true)) := by
  refine ⟨?_, ?_, ?_⟩
  · intro h
    unfold get_jpy_to_eur_rate
    rw [if_pos]
    simp [h]
  · intro h
    unfold get_jpy_to_eur_rate
    rw [if_neg (by simp [not_lt.mpr h])]
    cases fetched with
    | ok w =>
      by_cases hw : w = 0
      · simp [hw]
      · simp [hw]
    | noRate => rfl
    | httpError => rfl
  · intro w hw h
    unfold get_jpy_to_eur_rate
    rw [if_neg (by simp [not_lt.mpr h])]
    simp [hw]

/-- C6 witness: a request 1000 s after the fetch with a 3600 s TTL reuses the
cache without fetching; a request 7200 s after it refetches once and caches
the new value. -/
theorem claim_C6_witness :
    get_jpy_to_eur_rate 3600 1000 .httpError ⟨some (62 / 10000), 0⟩ =
      (some (62 / 10000), ⟨some (62 / 10000), 0⟩, false)
    ∧ get_jpy_to_eur_rate 3600 7200 (.ok (63 / 10000)) ⟨some (62 / 10000), 0⟩ =
      (some (63 / 10000), ⟨some (63 / 10000), 7200⟩, true) :=
  ⟨(claim_C6 3600 1000 0 (62 / 10000) .httpError).1 (by norm_num),
   (claim_C6 3600 7200 0 (62 / 10000) (.ok (63 / 10000))).2.2 (63 / 10000)
     (by norm_num) (by norm_num)⟩

/-- C9: when the fetch raises or the response holds no EUR rate, the getter
returns the previously cached value (still `none` if nothing ever succeeded)
and leaves the whole cache state — timestamp included — unchanged; and while
the cached rate is `none`, every request attempts the fetch, so a failed
attempt does not start a TTL window. -/
theorem claim_C9 (ttl now : ℚ) (fetched : FetchOutcome) (st : RateCache) :
    ((fetched = .noRate ∨ fetched = .httpError) →
      (get_jpy_to_eur_rate ttl now fetched st).1 = st.rate ∧
      (get_jpy_to_eur_rate ttl now fetched st).2.1 = st)
    ∧ (st.rate = none → (get_jpy_to_eur_rate ttl now fetched st).2.2 = true) := by
  constructor
  · intro h
    unfold get_jpy_to_eur_rate
    by_cases hc : (st.rate.isSome && decide (now - st.lastUpdated < ttl)) = true
    · rw [if_pos hc]
      exact ⟨rfl, rfl⟩
    · rw [if_neg hc]
      rcases h with rfl | rfl <;> exact ⟨rfl, rfl⟩
  · intro h
    unfold get_jpy_to_eur_rate
    rw [if_neg (by simp [h])]
    cases fetched with
    | ok w =>
      by_cases hw : w = 0
      · simp [hw]
      · simp [hw]
    | noRate => rfl
    | httpError => rfl

/-- C9 witness: a fetch that finds no rate in the response, against a cache
that never succeeded, returns `none`, leaves the state unchanged, and the
request did attempt the fetch. -/
theorem claim_C9_witness :
    ((get_jpy_to_eur_rate 3600 99999 .noRate ⟨none, 0⟩).1 = none ∧
     (get_jpy_to_eur_rate 3600 99999 .noRate ⟨none, 0⟩).2.1 = ⟨none, 0⟩)
    ∧ (get_jpy_to_eur_rate 3600 99999 .noRate ⟨none, 0⟩).2.2 = true :=
  ⟨(claim_C9 3600 99999 .noRate ⟨none, 0⟩).1 (Or.inl rfl),
   (claim_C9 3600 99999 .noRate ⟨none, 0⟩).2 rfl⟩

/-- C4: whenever the sort-order application ends in the `Failed` state, the
extraction loop is never invoked for that query and the query's result set is
empty. -/
theorem claim_C4 (cfg : Config) (pyHash : String → Int) (ps : PageState)
    (h : sortStateOf ps.sortOutcome = SortState.Failed) :
    (search_mercari cfg pyHash ps).products = [] ∧
    (search_mercari cfg pyHash ps).extractionInvoked = false := by
  have hsort : apply_sort_by_newest_mercari ps.sortOutcome = false := by
    cases hso : ps.sortOutcome with
    | success => rw [hso] at h; exact absurd h (by decide)
    | timedOut => rfl
    | noSuchOption => rfl
    | otherError => rfl
  unfold search_mercari
  rw [hsort]
  split
  · exact ⟨rfl, rfl⟩
  · split
    · exact ⟨rfl, rfl⟩
    · simp

/-- C4 witness: a page whose sort attempt times out yields an empty result
without entering extraction. -/
theorem claim_C4_witness :
    (search_mercari cfgPlain hash0 psSortFailed).products = [] ∧
    (search_mercari cfgPlain hash0 psSortFailed).extractionInvoked = false :=
  claim_C4 cfgPlain hash0 psSortFailed rfl

/-- Reduction of `extractStep` to a case split on the element's outcome. -/
theorem extractStep_eq (cfg : Config) (pyHash : String → Int) (acc : ExtractAcc)
    (i : Nat) (e : ItemElement) :
    extractStep cfg pyHash acc (i, e) =
      match extractItem cfg pyHash i e with
      | .skippedNoLink => acc
      | .skippedError => acc
      | .filteredWhiteBg _ => ⟨acc.products, acc.processed + 1, acc.stored⟩
      | .discardedInvalid _ _ _ => ⟨acc.products, acc.processed + 1, acc.stored⟩
      | .stored pid record =>
          ⟨dictInsert acc.products pid record, acc.processed + 1, acc.stored + 1⟩ := rfl

/-- C3 counterexample: two drops refute the claim that no field lookup
failure aborts an item.  An element whose link lookup fails is dropped by the
`continue` at `mercari_spy.py:440` — no hash-id fallback, not counted as
processed; and an element whose link read succeeded but whose title read
raises a stale-element error is dropped uncounted by the handlers at lines
541-551. -/
theorem claim_C3_counterexample :
    (extractItem cfgPlain hash0 0 elemNoLink = .skippedNoLink ∧
     extractStep cfgPlain hash0 ⟨[], 0, 0⟩ (0, elemNoLink) = ⟨[], 0, 0⟩)
    ∧ (extractItem cfgPlain hash0 1 elemStaleTitle = .skippedError ∧
       extractStep cfgPlain hash0 ⟨[], 0, 0⟩ (1, elemStaleTitle) = ⟨[], 0, 0⟩) :=
  ⟨⟨rfl, rfl⟩, ⟨rfl, rfl⟩⟩

/-- C3 as amended: a listing is dropped without being counted only when a
read fails outright — a missing or empty link href, or a stale/unforeseen
exception escaping the per-item handlers (possible during the scroll, the
link block, or the title block; every later block catches all exceptions and
only degrades its field).  When the element scrolls, its link href is read
as non-empty and its title read does not raise, no field lookup failure
aborts the item: it always gets an id — the parsed `m<digits>` one, or the
hash-plus-index fallback when the link does not parse — and an item that
fails the validity check (or is excluded by the background filter) is
discarded from the result set but still counted as processed. -/
theorem claim_C3 (cfg : Config) (pyHash : String → Int) (i : Nat) (e : ItemElement)
    (l : String) (hscroll : e.scrollRaises = false) (hl : e.linkRead = .ok l)
    (hne : l ≠ "") :
    (e.titleRead = .raised →
      extractItem cfg pyHash i e = .skippedError ∧
      ∀ acc : ExtractAcc, extractStep cfg pyHash acc (i, e) = acc)
    ∧ (e.titleRead ≠ .raised →
      extractItem cfg pyHash i e ≠ .skippedNoLink ∧
      extractItem cfg pyHash i e ≠ .skippedError ∧
      (extractItem cfg pyHash i e).idOf = some (match parseProductId l with
        | some pid => pid
        | none => "hash_" ++ toString (pyHash l) ++ "_" ++ toString i))
    ∧ (∀ (acc : ExtractAcc) (pid t pr : String),
        extractItem cfg pyHash i e = .discardedInvalid pid t pr →
        extractStep cfg pyHash acc (i, e) = ⟨acc.products, acc.processed + 1, acc.stored⟩)
    ∧ (∀ (acc : ExtractAcc) (pid : String),
        extractItem cfg pyHash i e = .filteredWhiteBg pid →
        extractStep cfg pyHash acc (i, e) = ⟨acc.products, acc.processed + 1, acc.stored⟩) := by
  refine ⟨?_, ?_, ?_, ?_⟩
  · intro ht
    have he : extractItem cfg pyHash i e = .skippedError := by
      simp only [extractItem, hscroll, hl, ht]
      rw [if_neg hne]
      simp
    exact ⟨he, fun acc => by rw [extractStep_eq, he]⟩
  · intro ht
    cases ht2 : e.titleRead with
    | raised => exact absurd ht2 ht
    | ok raw =>
      refine ⟨?_, ?_, ?_⟩ <;>
      · simp only [extractItem, hscroll, hl, ht2]
        rw [if_neg (by decide : ¬(false = true)), if_neg hne]
        split
        · simp [ItemOutcome.idOf]
        · split <;> simp [ItemOutcome.idOf]
    | absent =>
      refine ⟨?_, ?_, ?_⟩ <;>
      · simp only [extractItem, hscroll, hl, ht2]
        rw [if_neg (by decide : ¬(false = true)), if_neg hne]
        split
        · simp [ItemOutcome.idOf]
        · split <;> simp [ItemOutcome.idOf]
  · intro acc pid t pr hmatch
    rw [extractStep_eq, hmatch]
  · intro acc pid hmatch
    rw [extractStep_eq, hmatch]

/-- C3 witness: the element whose title read goes stale is dropped uncounted
despite its valid link, while an element with a parseable link but no title
or price data is kept through extraction with id `m777`, discarded by the
validity check, and counted as processed. -/
theorem claim_C3_witness :
    (extractItem cfgPlain hash0 1 elemStaleTitle = .skippedError)
    ∧ (extractStep cfgPlain hash0 ⟨[], 5, 2⟩ (1, elemStaleTitle) = ⟨[], 5, 2⟩)
    ∧ (extractItem cfgPlain hash0 4 elemLinked ≠ .skippedNoLink)
    ∧ ((extractItem cfgPlain hash0 4 elemLinked).idOf = some "m777")
    ∧ (extractStep cfgPlain hash0 ⟨[], 7, 3⟩ (4, elemLinked) = ⟨[], 8, 3⟩) := by
  obtain ⟨hse, hsacc⟩ :=
    (claim_C3 cfgPlain hash0 1 elemStaleTitle "https://jp.mercari.com/item/m5"
      rfl rfl (by decide)).1 rfl
  obtain ⟨-, hlinked, hdisc, -⟩ :=
    claim_C3 cfgPlain hash0 4 elemLinked "https://jp.mercari.com/item/m777"
      rfl rfl (by decide)
  obtain ⟨hn, -, hid⟩ := hlinked (by decide)
  refine ⟨hse, hsacc ⟨[], 5, 2⟩, hn, ?_,
    hdisc ⟨[], 7, 3⟩ "m777" "Title not found" "Price not found" (by decide)⟩
  rw [hid]
  decide

/-- Every chunk the logger slices off is at most the Telegram limit. -/
theorem chunksFuel_mem_length_le (fuel : Nat) (cs : List Char) (c : List Char)
    (hc : c ∈ chunksFuel fuel cs) : c.length ≤ telegramMaxLen := by
  induction fuel generalizing cs with
  | zero => simp [chunksFuel] at hc
  | succ n ih =>
    cases cs with
    | nil => simp [chunksFuel] at hc
    | cons x t =>
      simp only [chunksFuel, List.mem_cons] at hc
      rcases hc with rfl | hc
      · rw [List.length_take]
        exact min_le_left _ _
      · exact ih _ hc

/-- With enough fuel (the message length suffices), the chunks concatenate
back to the whole message. -/
theorem chunksFuel_flatten (fuel : Nat) (cs : List Char) (h : cs.length ≤ fuel) :
    (chunksFuel fuel cs).flatten = cs := by
  induction fuel generalizing cs with
  | zero =>
    rw [List.length_eq_zero.mp (Nat.le_zero.mp h)]
    rfl
  | succ n ih =>
    cases cs with
    | nil => rfl
    | cons x t =>
      simp only [chunksFuel, List.flatten_cons]
      rw [ih]
      · exact List.take_append_drop _ _
      · rw [List.length_drop]
        rw [show telegramMaxLen = 4096 from rfl]
        have hlen : (x :: t).length ≤ n + 1 := h
        omega

/-- Concatenating strings built from character lists is building one string
from the concatenation. -/
theorem foldl_append_mk (l : List (List Char)) (s : String) :
    List.foldl (· ++ ·) s (l.map String.mk) = s ++ String.mk l.flatten := by
  induction l generalizing s with
  | nil =>
    show s = s ++ String.mk []
    cases s with
    | mk data =>
      show String.mk data = String.mk (data ++ [])
      rw [List.append_nil]
  | cons c t ih =>
    simp only [List.map_cons, List.foldl_cons, List.flatten_cons]
    rw [ih]
    cases s with
    | mk data =>
      show String.mk ((data ++ c) ++ t.flatten) = String.mk (data ++ (c ++ t.flatten))
      rw [List.append_assoc]

/-- C8 counterexample: the alert dispatcher sends the product-alert text as a
single `send_message` call, and a record with a 4200-character title makes
that single send exceed the provider's 4096-character limit — refuting
"every overlong text notification sent by the alert dispatcher is split". -/
theorem claim_C8_counterexample :
    alertTextSends "q" bigTitleProduct = [alertMessage "q" bigTitleProduct] ∧
    telegramMaxLen < (alertMessage "q" bigTitleProduct).length := by
  refine ⟨rfl, ?_⟩
  have htitle : bigTitleProduct.title.length = 4200 := by
    show (List.replicate 4200 'a').length = 4200
    rw [List.length_replicate]
  simp only [alertMessage, String.length_append, htitle]
  decide

/-- C8 as amended: splitting into at-most-4096-character sends is performed
by the debug logger (`log_message`), whose chunks cover the message exactly;
the alert dispatcher itself always issues the product-alert text as one
unsplit send. -/
theorem claim_C8 :
    (∀ q p, alertTextSends q p = [alertMessage q p])
    ∧ (∀ msg : String, ∀ c ∈ log_message_sends msg, c.length ≤ telegramMaxLen)
    ∧ (∀ msg : String, String.join (log_message_sends msg) = msg) := by
  refine ⟨fun _ _ => rfl, ?_, ?_⟩
  · intro msg c hc
    obtain ⟨cl, hcl, rfl⟩ := List.mem_map.mp hc
    show cl.length ≤ telegramMaxLen
    exact chunksFuel_mem_length_le _ _ _ hcl
  · intro msg
    show List.foldl (· ++ ·) "" ((chunksFuel msg.length msg.toList).map String.mk) = msg
    rw [foldl_append_mk]
    rw [chunksFuel_flatten msg.length msg.toList (le_refl msg.toList.length)]
    rfl

/-- C8 witness: a short message is sent in one chunk that is within the
limit and reassembles to the message. -/
theorem claim_C8_witness :
    ("hello" : String).length ≤ telegramMaxLen ∧
    String.join (log_message_sends "hello") = "hello" :=
  ⟨claim_C8.2.1 "hello" "hello" (by decide), claim_C8.2.2 "hello"⟩

/-- The classifier on a fetched response, written as its chain of guards. -/
theorem is_background_white_some (url : String) (rsp : ImageFetch) (m ct : Nat) (bt : ℚ) :
    is_background_white url (some rsp) m ct bt =
      if (decide (url = "") || !startsWithS "http" url) = true then false
      else if (!startsWithS "image/" (strLower rsp.contentType)) = true then false
      else match rsp.decoded with
        | none => false
        | some img =>
          if img.width ≤ m * 2 ∨ img.height ≤ m * 2 then false
          else if (borderPixelsOf img m).isEmpty then false
          else decide (bt ≤ ((countWhite (borderPixelsOf img m) ct : ℕ) : ℚ) /
                       (((borderPixelsOf img m).length : ℕ) : ℚ)) := rfl

set_option maxRecDepth 100000 in
/-- The all-white 12×12 image passes the classifier at the default margin
and the source's default thresholds. -/
theorem white12_eval :
    is_background_white "http://img" (some whiteFetch) 5 245 (95 / 100) = true := by
  show decide ((95 / 100 : ℚ) ≤
      ((countWhite (borderPixelsOf whiteImg 5) 245 : ℕ) : ℚ) /
      (((borderPixelsOf whiteImg 5).length : ℕ) : ℚ)) = true
  rw [decide_eq_true_eq]
  have h1 : countWhite (borderPixelsOf whiteImg 5) 245 = 140 := by decide
  have h2 : (borderPixelsOf whiteImg 5).length = 140 := by decide
  rw [h1, h2]
  push_cast
  norm_num

/-- The element with the all-white image is excluded by the filter. -/
theorem elemWhite_filtered :
    extractItem cfgFilter hash0 0 elemWhite = .filteredWhiteBg "m9" := by
  have hw : is_background_white (extractImage elemWhite) elemWhite.imageFetch 5
      cfgFilter.whiteBgColorThreshold cfgFilter.whiteBgBorderThreshold = true := by
    rw [show extractImage elemWhite = "http://img" from rfl]
    exact white12_eval
  simp only [extractItem]
  rw [hw]
  decide

/-- C10: the background classifier answers "not light" whenever the image
URL is empty or not `http(s)`-absolute, the fetch raised, the content type is
not an image, the decode failed, or the image is at most twice the border
margin in either dimension; conversely a `True` answer implies every guard
passed and the light-border fraction reached the threshold — and a record
can only be excluded by the filter when the filter is on, an image URL was
extracted, and the classifier answered `True` on it. -/
theorem claim_C10 (url : String) (fetch : Option ImageFetch) (m ct : Nat) (bt : ℚ) :
    ((url = "" ∨ startsWithS "http" url = false) →
      is_background_white url fetch m ct bt = false)
    ∧ (fetch = none → is_background_white url fetch m ct bt = false)
    ∧ (∀ rsp, fetch = some rsp → startsWithS "image/" (strLower rsp.contentType) = false →
        is_background_white url fetch m ct bt = false)
    ∧ (∀ rsp, fetch = some rsp → rsp.decoded = none →
        is_background_white url fetch m ct bt = false)
    ∧ (∀ rsp img, fetch = some rsp → rsp.decoded = some img →
        (img.width ≤ m * 2 ∨ img.height ≤ m * 2) →
        is_background_white url fetch m ct bt = false)
    ∧ (is_background_white url fetch m ct bt = true →
        url ≠ "" ∧ startsWithS "http" url = true ∧
        ∃ rsp img, fetch = some rsp ∧ rsp.decoded = some img ∧
          startsWithS "image/" (strLower rsp.contentType) = true ∧
          m * 2 < img.width ∧ m * 2 < img.height ∧
          bt ≤ ((countWhite (borderPixelsOf img m) ct : ℕ) : ℚ) /
               (((borderPixelsOf img m).length : ℕ) : ℚ))
    ∧ (∀ (cfg : Config) (pyHash : String → Int) (i : Nat) (e : ItemElement) (pid : String),
        extractItem cfg pyHash i e = .filteredWhiteBg pid →
        cfg.filterWhiteBackgrounds = true ∧ extractImage e ≠ "" ∧
        is_background_white (extractImage e) e.imageFetch 5
          cfg.whiteBgColorThreshold cfg.whiteBgBorderThreshold = true) := by
  refine ⟨?_, ?_, ?_, ?_, ?_, ?_, ?_⟩
  · intro h
    have hc : (decide (url = "") || !startsWithS "http" url) = true := by
      rcases h with h | h <;> simp [h]
    unfold is_background_white
    rw [if_pos hc]
  · rintro rfl
    unfold is_background_white
    split
    · rfl
    · rfl
  · rintro rsp rfl hct
    rw [is_background_white_some]
    split
    · rfl
    · simp [hct]
  · rintro rsp rfl hdec
    rw [is_background_white_some]
    split
    · rfl
    · split
      · rfl
      · simp [hdec]
  · rintro rsp img rfl hdec hsize
    rw [is_background_white_some]
    split
    · rfl
    · split
      · rfl
      · simp only [hdec]
        rw [if_pos hsize]
  · intro htrue
    match hf : fetch with
    | none =>
      unfold is_background_white at htrue
      split at htrue
      · simp at htrue
      · simp at htrue
    | some rsp =>
      rw [is_background_white_some] at htrue
      by_cases h1 : (decide (url = "") || !startsWithS "http" url) = true
      · rw [if_pos h1] at htrue
        simp at htrue
      · rw [if_neg h1] at htrue
        have hurl : ¬url = "" ∧ startsWithS "http" url = true := by
          simpa [not_or, Bool.not_eq_true'] using h1
        by_cases h2 : (!startsWithS "image/" (strLower rsp.contentType)) = true
        · rw [if_pos h2] at htrue
          simp at htrue
        · rw [if_neg h2] at htrue
          have hct : startsWithS "image/" (strLower rsp.contentType) = true := by
            simpa [Bool.not_eq_true'] using h2
          match hdec : rsp.decoded with
          | none =>
            rw [hdec] at htrue
            simp at htrue
          | some img =>
            simp only [hdec] at htrue
            by_cases h3 : img.width ≤ m * 2 ∨ img.height ≤ m * 2
            · rw [if_pos h3] at htrue
              simp at htrue
            · rw [if_neg h3] at htrue
              push_neg at h3
              by_cases h4 : (borderPixelsOf img m).isEmpty = true
              · rw [if_pos h4] at htrue
                simp at htrue
              · rw [if_neg h4] at htrue
                exact ⟨hurl.1, hurl.2, rsp, img, rfl, hdec, hct, h3.1, h3.2,
                  of_decide_eq_true htrue⟩
  · intro cfg pyHash i e pid hmatch
    by_cases hscroll : e.scrollRaises = true
    · rw [show extractItem cfg pyHash i e = .skippedError from by
        simp [extractItem, hscroll]] at hmatch
      cases hmatch
    · have hs : e.scrollRaises = false := by
        cases hb : e.scrollRaises
        · rfl
        · exact absurd hb hscroll
      cases hl : e.linkRead with
      | raised =>
        rw [show extractItem cfg pyHash i e = .skippedError from by
          simp [extractItem, hs, hl]] at hmatch
        cases hmatch
      | absent =>
        rw [show extractItem cfg pyHash i e = .skippedNoLink from by
          simp [extractItem, hs, hl]] at hmatch
        cases hmatch
      | ok link =>
        by_cases hne : link = ""
        · rw [show extractItem cfg pyHash i e = .skippedNoLink from by
            simp [extractItem, hs, hl, hne]] at hmatch
          cases hmatch
        · cases ht : e.titleRead with
          | raised =>
            rw [show extractItem cfg pyHash i e = .skippedError from by
              simp [extractItem, hs, hl, hne, ht]] at hmatch
            cases hmatch
          | ok raw =>
            simp only [extractItem, hs, hl, ht] at hmatch
            rw [if_neg (by decide : ¬(false = true)), if_neg hne] at hmatch
            by_cases hc1 : (cfg.filterWhiteBackgrounds && !(extractImage e == "") &&
                is_background_white (extractImage e) e.imageFetch 5
                  cfg.whiteBgColorThreshold cfg.whiteBgBorderThreshold) = true
            · simp only [Bool.and_eq_true, Bool.not_eq_true', beq_eq_false_iff_ne] at hc1
              exact ⟨hc1.1.1, hc1.1.2, hc1.2⟩
            · rw [if_neg hc1] at hmatch
              split at hmatch <;> simp at hmatch
          | absent =>
            simp only [extractItem, hs, hl, ht] at hmatch
            rw [if_neg (by decide : ¬(false = true)), if_neg hne] at hmatch
            by_cases hc1 : (cfg.filterWhiteBackgrounds && !(extractImage e == "") &&
                is_background_white (extractImage e) e.imageFetch 5
                  cfg.whiteBgColorThreshold cfg.whiteBgBorderThreshold) = true
            · simp only [Bool.and_eq_true, Bool.not_eq_true', beq_eq_false_iff_ne] at hc1
              exact ⟨hc1.1.1, hc1.1.2, hc1.2⟩
            · rw [if_neg hc1] at hmatch
              split at hmatch <;> simp at hmatch

/-- C10 witness: an empty URL yields "not light"; the all-white 12×12 image
at margin 5 satisfies every guard and the threshold; and the concretely
filtered element certifies the filter's preconditions. -/
theorem claim_C10_witness :
    is_background_white "" none 5 245 (95 / 100) = false
    ∧ ("http://img" ≠ "" ∧ startsWithS "http" "http://img" = true ∧
        ∃ rsp img, (some whiteFetch : Option ImageFetch) = some rsp ∧ rsp.decoded = some img ∧
          startsWithS "image/" (strLower rsp.contentType) = true ∧
          5 * 2 < img.width ∧ 5 * 2 < img.height ∧
          (95 / 100 : ℚ) ≤ ((countWhite (borderPixelsOf img 5) 245 : ℕ) : ℚ) /
            (((borderPixelsOf img 5).length : ℕ) : ℚ))
    ∧ (cfgFilter.filterWhiteBackgrounds = true ∧ extractImage elemWhite ≠ "" ∧
        is_background_white (extractImage elemWhite) elemWhite.imageFetch 5
          cfgFilter.whiteBgColorThreshold cfgFilter.whiteBgBorderThreshold = true) :=
  ⟨(claim_C10 "" none 5 245 (95 / 100)).1 (Or.inl rfl),
   (claim_C10 "http://img" (some whiteFetch) 5 245 (95 / 100)).2.2.2.2.2.1 white12_eval,
   (claim_C10 "x" none 5 245 (95 / 100)).2.2.2.2.2.2 cfgFilter hash0 0 elemWhite "m9"
     elemWhite_filtered⟩

end MercariSpy
